import Mathlib

set_option maxRecDepth 100000

/-!
A verification development for the JerryScript debugger WebSocket transport
layer.  The definitions below are shallow embeddings of the C sources:

* `jerry-core/debugger/debugger.h` — protocol constants, flags, packet layouts;
* the two socket transport implementations (referred to here as `P1` and `P2`):
  `P1` is the port-layer transport (file `part_001`), `P2` is the transport
  that manipulates the engine context directly (file `part_002`).

Machine integers are modelled as `Nat`, with explicit `% 256` / bit-masking
where the C code truncates.  Buffers are `List Nat` of byte values; the
receive-buffer offset is the length of the list of currently valid bytes.
-/

/-! ## Protocol constants (`debugger.h` and transport sources) -/

/-- `JERRY_DEBUGGER_VERSION` (debugger.h line 28). -/
def JERRY_DEBUGGER_VERSION : Nat := 2

/-- `JERRY_DEBUGGER_MAX_BUFFER_SIZE` (128, debugger.h line 48 and `part_001` line 52). -/
def JERRY_DEBUGGER_MAX_BUFFER_SIZE : Nat := 128

/-- `JERRY_DEBUGGER_WEBSOCKET_FIN_BIT` (0x80). -/
def JERRY_DEBUGGER_WEBSOCKET_FIN_BIT : Nat := 0x80

/-- `JERRY_DEBUGGER_WEBSOCKET_MASK_BIT` (0x80). -/
def JERRY_DEBUGGER_WEBSOCKET_MASK_BIT : Nat := 0x80

/-- `JERRY_DEBUGGER_WEBSOCKET_OPCODE_MASK` (0x0f). -/
def JERRY_DEBUGGER_WEBSOCKET_OPCODE_MASK : Nat := 0x0f

/-- `JERRY_DEBUGGER_WEBSOCKET_LENGTH_MASK` (0x7f). -/
def JERRY_DEBUGGER_WEBSOCKET_LENGTH_MASK : Nat := 0x7f

/-- `JERRY_DEBUGGER_WEBSOCKET_HEADER_SIZE` (2). -/
def JERRY_DEBUGGER_WEBSOCKET_HEADER_SIZE : Nat := 2

/-- `JERRY_DEBUGGER_WEBSOCKET_MASK_SIZE` (4). -/
def JERRY_DEBUGGER_WEBSOCKET_MASK_SIZE : Nat := 4

/-- `sizeof (jerry_debugger_receive_header_t)`: opcode byte, size byte and the
four mask bytes (6 in total). -/
def JERRY_DEBUGGER_RECEIVE_HEADER_SIZE : Nat :=
  JERRY_DEBUGGER_WEBSOCKET_HEADER_SIZE + JERRY_DEBUGGER_WEBSOCKET_MASK_SIZE

/-- `JERRY_DEBUGGER_WEBSOCKET_BINARY_FRAME` opcode (2). -/
def JERRY_DEBUGGER_WEBSOCKET_BINARY_FRAME : Nat := 2

/-- `JERRY_DEBUGGER_WEBSOCKET_TEXT_FRAME` opcode (1). -/
def JERRY_DEBUGGER_WEBSOCKET_TEXT_FRAME : Nat := 1

/-- `JERRY_DEBUGGER_WEBSOCKET_CLOSE_CONNECTION` opcode (8). -/
def JERRY_DEBUGGER_WEBSOCKET_CLOSE_CONNECTION : Nat := 8

/-- `JERRY_DEBUGGER_WEBSOCKET_PING` opcode (9). -/
def JERRY_DEBUGGER_WEBSOCKET_PING : Nat := 9

/-- `JERRY_DEBUGGER_WEBSOCKET_PONG` opcode (10). -/
def JERRY_DEBUGGER_WEBSOCKET_PONG : Nat := 10

/-- `JERRY_DEBUGGER_CONFIGURATION` outgoing message type (1). -/
def JERRY_DEBUGGER_CONFIGURATION : Nat := 1

/-! Debugger option flags (debugger.h lines 103-116). -/

/-- `JERRY_DEBUGGER_CONNECTED` flag (1 << 0). -/
def JERRY_DEBUGGER_CONNECTED : Nat := 1

/-- `JERRY_DEBUGGER_BREAKPOINT_MODE` flag (1 << 1). -/
def JERRY_DEBUGGER_BREAKPOINT_MODE : Nat := 2

/-- `JERRY_DEBUGGER_VM_STOP` flag (1 << 2). -/
def JERRY_DEBUGGER_VM_STOP : Nat := 4

/-- `JERRY_DEBUGGER_VM_IGNORE` flag (1 << 3). -/
def JERRY_DEBUGGER_VM_IGNORE : Nat := 8

/-! ## Frame validation and unmasking

Both transport implementations contain, inside their receive functions, the
same completed-frame handling: header validation, opcode check, completeness
check and the in-place unmasking loop.  Each implementation is transcribed
separately (`P1` from `part_001` lines 515-564, `P2` from `part_002` lines
556-613) so that their equivalence can be stated and proved.
-/

/-- Outcome of examining the receive buffer for one frame.  `incomplete`
covers both early returns of the C code (fewer bytes than a receive header,
or fewer bytes than the full frame).  The two error constructors record
which error message is logged before the connection is closed. -/
inductive WsFrameResult where
  | incomplete : WsFrameResult
  | unsupportedMessage : WsFrameResult
  | unsupportedOpcode : WsFrameResult
  | accepted (payload : List Nat) (totalSize : Nat) : WsFrameResult
  deriving DecidableEq, Repr

/-- The unmasking loop of `part_001` lines 550-562: XOR each data byte with
the mask bytes, the mask pointer cycling through the 4 mask bytes
(`mask_p` is reset when it reaches `mask_end_p`). -/
def jerry_debugger_unmask_p1 (mask : List Nat) (maskIdx : Nat) : List Nat → List Nat
  | [] => []
  | d :: rest =>
    (d ^^^ mask.getD maskIdx 0) ::
      jerry_debugger_unmask_p1 mask
        (if maskIdx + 1 ≥ JERRY_DEBUGGER_WEBSOCKET_MASK_SIZE then 0 else maskIdx + 1) rest

/-- The unmasking loop of `part_002` lines 601-613 (identical code). -/
def jerry_debugger_unmask_p2 (mask : List Nat) (maskIdx : Nat) : List Nat → List Nat
  | [] => []
  | d :: rest =>
    (d ^^^ mask.getD maskIdx 0) ::
      jerry_debugger_unmask_p2 mask
        (if maskIdx + 1 ≥ JERRY_DEBUGGER_WEBSOCKET_MASK_SIZE then 0 else maskIdx + 1) rest

/-- Completed-frame handling of `part_001` `jerry_debugger_receive_ws`
(lines 515-564).  The maximum receive size is computed inline
(lines 520-521): `(uint8_t) (JERRY_DEBUGGER_MAX_BUFFER_SIZE - 6) = 122`.
The buffer argument is the list of valid bytes (its length is `offset`). -/
def jerry_debugger_receive_frame_p1 (buf : List Nat) : WsFrameResult :=
  if buf.length < JERRY_DEBUGGER_RECEIVE_HEADER_SIZE then .incomplete
  else
    let max_receive_size := (JERRY_DEBUGGER_MAX_BUFFER_SIZE -
      (JERRY_DEBUGGER_WEBSOCKET_HEADER_SIZE + JERRY_DEBUGGER_WEBSOCKET_MASK_SIZE)) % 256
    let b0 := buf.getD 0 0
    let b1 := buf.getD 1 0
    if (b0 &&& (0xf0 : Nat)) ≠ JERRY_DEBUGGER_WEBSOCKET_FIN_BIT
        ∨ (b1 &&& JERRY_DEBUGGER_WEBSOCKET_LENGTH_MASK) > max_receive_size
        ∨ (b1 &&& JERRY_DEBUGGER_WEBSOCKET_MASK_BIT) = 0 then
      .unsupportedMessage
    else if (b0 &&& JERRY_DEBUGGER_WEBSOCKET_OPCODE_MASK) ≠
        JERRY_DEBUGGER_WEBSOCKET_BINARY_FRAME then
      .unsupportedOpcode
    else
      let message_size := b1 &&& JERRY_DEBUGGER_WEBSOCKET_LENGTH_MASK
      let message_total_size := message_size + JERRY_DEBUGGER_RECEIVE_HEADER_SIZE
      if buf.length < message_total_size then .incomplete
      else
        let mask := (buf.drop JERRY_DEBUGGER_WEBSOCKET_HEADER_SIZE).take
          JERRY_DEBUGGER_WEBSOCKET_MASK_SIZE
        let data := (buf.drop JERRY_DEBUGGER_RECEIVE_HEADER_SIZE).take message_size
        .accepted (jerry_debugger_unmask_p1 mask 0 data) message_total_size

/-- Completed-frame handling of `part_002` `jerry_debugger_receive_ws`
(lines 556-613).  The maximum receive size is read from the context
(`debugger_max_receive_size`), passed here as `max_receive_size`. -/
def jerry_debugger_receive_frame_p2 (max_receive_size : Nat) (buf : List Nat) : WsFrameResult :=
  if buf.length < JERRY_DEBUGGER_RECEIVE_HEADER_SIZE then .incomplete
  else
    let b0 := buf.getD 0 0
    let b1 := buf.getD 1 0
    if (b0 &&& (0xf0 : Nat)) ≠ JERRY_DEBUGGER_WEBSOCKET_FIN_BIT
        ∨ (b1 &&& JERRY_DEBUGGER_WEBSOCKET_LENGTH_MASK) > max_receive_size
        ∨ (b1 &&& JERRY_DEBUGGER_WEBSOCKET_MASK_BIT) = 0 then
      .unsupportedMessage
    else if (b0 &&& JERRY_DEBUGGER_WEBSOCKET_OPCODE_MASK) ≠
        JERRY_DEBUGGER_WEBSOCKET_BINARY_FRAME then
      .unsupportedOpcode
    else
      let message_size := b1 &&& JERRY_DEBUGGER_WEBSOCKET_LENGTH_MASK
      let message_total_size := message_size + JERRY_DEBUGGER_RECEIVE_HEADER_SIZE
      if buf.length < message_total_size then .incomplete
      else
        let mask := (buf.drop JERRY_DEBUGGER_WEBSOCKET_HEADER_SIZE).take
          JERRY_DEBUGGER_WEBSOCKET_MASK_SIZE
        let data := (buf.drop JERRY_DEBUGGER_RECEIVE_HEADER_SIZE).take message_size
        .accepted (jerry_debugger_unmask_p2 mask 0 data) message_total_size

/-! ## Session state (`part_002` transport, engine context fields)

The fields of the engine context touched by the transport layer:
`debugger_flags`, the receive buffer together with
`debugger_receive_buffer_offset` (modelled as the list of currently valid
bytes, whose length is the offset), `debugger_max_receive_size`,
`debugger_max_send_size`, the socket (`fd`, modelled as an open/closed
flag), the deferred byte-code free queue headed by
`debugger_byte_code_free_head`, and the bytes handed to the TCP send path.
-/

structure DebuggerState where
  flags : Nat
  receiveBuffer : List Nat
  maxReceiveSize : Nat
  maxSendSize : Nat
  socketOpen : Bool
  freeQueue : List Nat
  freedByteCode : List Nat
  sentBytes : List Nat
  deriving DecidableEq, Repr

/-- `jerry_debugger_close_connection_tcp` of `part_002` (lines 98-116):
the flags word is *assigned* `JERRY_DEBUGGER_VM_IGNORE` (clearing every
other flag), the socket is closed, and
`jerry_debugger_free_unreferenced_byte_code` is called.

Modelled from the spec: the body of
`jerry_debugger_free_unreferenced_byte_code` (jerry-core/debugger/debugger.c)
is not under src/; per the spec it flushes the deferred-free queue, freeing
every queued byte-code unit, which is modelled by moving the whole
`freeQueue` into `freedByteCode`.  The `log_error` argument only controls
logging of `errno` and has no state effect here. -/
def jerry_debugger_close_connection_tcp (logError : Bool) (s : DebuggerState) : DebuggerState :=
  let _ := logError
  { s with
    flags := JERRY_DEBUGGER_VM_IGNORE
    socketOpen := false
    freeQueue := []
    freedByteCode := s.freedByteCode ++ s.freeQueue }

/-- Result of the underlying socket `send` after the `EWOULDBLOCK` retry
loop of `jerry_debugger_send_tcp`: either every byte was eventually pushed,
or a hard error (an `errno` other than `EWOULDBLOCK`) occurred. -/
inductive SendOutcome where
  | ok : SendOutcome
  | hardError : SendOutcome
  deriving DecidableEq, Repr

/-- `jerry_debugger_send_tcp` of `part_002` (lines 124-151): push the whole
buffer, retrying on would-block; on any other error close the connection
(with `errno` logging) and return false. -/
def jerry_debugger_send_tcp (outcome : SendOutcome) (data : List Nat)
    (s : DebuggerState) : Bool × DebuggerState :=
  match outcome with
  | .ok => (true, { s with sentBytes := s.sentBytes ++ data })
  | .hardError => (false, jerry_debugger_close_connection_tcp true s)

/-- The bytes placed on the wire by `jerry_debugger_send_ws` for a payload
of the given contents (`part_002` lines 487-499, identically `part_001`
lines 462-474): `header[0] = FIN_BIT | BINARY_FRAME`,
`header[1] = (uint8_t) data_size`, and `data_size + 2` bytes are passed to
`jerry_debugger_send_tcp`. -/
def jerry_debugger_send_ws_frame (payload : List Nat) : List Nat :=
  (JERRY_DEBUGGER_WEBSOCKET_FIN_BIT ||| JERRY_DEBUGGER_WEBSOCKET_BINARY_FRAME) ::
    (payload.length % 256) :: payload

/-- `jerry_debugger_send_ws` of `part_002`: frame the payload and hand it to
the TCP send path. -/
def jerry_debugger_send_ws (outcome : SendOutcome) (payload : List Nat)
    (s : DebuggerState) : Bool × DebuggerState :=
  jerry_debugger_send_tcp outcome (jerry_debugger_send_ws_frame payload) s

/-! ## The receive loop of `part_002`

`jerry_debugger_receive_ws` (lines 515-634) is a `while (true)` loop.  Each
iteration performs one non-blocking `recv` into the receive buffer at the
current offset and then examines the buffer.  The external inputs of one
iteration are the outcome of that `recv` and — when a completed frame is
dispatched — the outputs of `jerry_debugger_process_message`, whose body
(jerry-core/debugger/debugger.c) is outside the transport layer; they are
supplied as unconstrained parameters. -/

/-- Outcome of one non-blocking `recv` call: a hard error (`errno` other
than `EWOULDBLOCK`), would-block (0 bytes), or delivered bytes.  The code
asks for at most `JERRY_DEBUGGER_MAX_BUFFER_SIZE - offset` bytes, so the
step truncates `data` to that many bytes. -/
inductive RecvInput where
  | hardError : RecvInput
  | wouldBlock : RecvInput
  | bytes (data : List Nat) : RecvInput
  deriving DecidableEq, Repr

/-- External inputs of one iteration of the receive loop: the `recv`
outcome and the outputs of `jerry_debugger_process_message` (its return
value, and the values it leaves in `resume_exec` and
`expected_message_type`) in case a message is dispatched. -/
structure StepInput where
  recv : RecvInput
  pmOk : Bool
  pmResume : Bool
  pmExpected : Nat
  deriving DecidableEq, Repr

/-- Local state carried across loop iterations: the session state plus the
`resume_exec` and `expected_message_type` locals (initialised to `false`
and 0 at lines 530-531). -/
structure ReceiveLoopState where
  st : DebuggerState
  resumeExec : Bool
  expectedMessageType : Nat
  deriving DecidableEq, Repr

/-- Error messages logged by the receive path. -/
inductive LogMsg where
  | errnoError : LogMsg
  | unsupportedWebsocketMessage : LogMsg
  | unsupportedWebsocketOpcode : LogMsg
  deriving DecidableEq, Repr

/-- Continuation after one loop iteration: return from
`jerry_debugger_receive_ws` with the given result, or run another
iteration. -/
inductive StepNext where
  | ret (resumeExec : Bool) (s : DebuggerState) : StepNext
  | loop (ls : ReceiveLoopState) : StepNext
  deriving DecidableEq, Repr

/-- Observable outcome of one loop iteration: the unmasked payload passed
to `jerry_debugger_process_message` (if any), the error message logged (if
any), and the continuation. -/
structure StepOut where
  dispatched : Option (List Nat)
  errorLog : Option LogMsg
  next : StepNext
  deriving DecidableEq, Repr

/-- One iteration of the `while (true)` loop of `part_002`
`jerry_debugger_receive_ws` (lines 533-634), in source order: `recv` at the
current offset (hard error closes the connection and returns true); header
and opcode validation on a buffered header (failure logs and closes);
early return (or `continue` when `expected_message_type != 0`) while the
frame is incomplete; unmask in place; dispatch to
`jerry_debugger_process_message` (a false return ends the call with true);
`memmove` the leftover bytes to the buffer start and reduce the offset by
the consumed total size. -/
def jerry_debugger_receive_step (inp : StepInput) (ls : ReceiveLoopState) : StepOut :=
  let s := ls.st
  let offset := s.receiveBuffer.length
  match inp.recv with
  | .hardError =>
    { dispatched := none
      errorLog := some .errnoError
      next := .ret true (jerry_debugger_close_connection_tcp true s) }
  | r =>
    let received := match r with
      | .bytes data => data.take (JERRY_DEBUGGER_MAX_BUFFER_SIZE - offset)
      | _ => []
    let buf := s.receiveBuffer ++ received
    let s := { s with receiveBuffer := buf }
    match jerry_debugger_receive_frame_p2 s.maxReceiveSize buf with
    | .incomplete =>
      if ls.expectedMessageType ≠ 0 then
        { dispatched := none, errorLog := none
          next := .loop { ls with st := s } }
      else
        { dispatched := none, errorLog := none
          next := .ret ls.resumeExec s }
    | .unsupportedMessage =>
      { dispatched := none
        errorLog := some .unsupportedWebsocketMessage
        next := .ret true (jerry_debugger_close_connection_tcp false s) }
    | .unsupportedOpcode =>
      { dispatched := none
        errorLog := some .unsupportedWebsocketOpcode
        next := .ret true (jerry_debugger_close_connection_tcp false s) }
    | .accepted payload totalSize =>
      let bufU := buf.take JERRY_DEBUGGER_RECEIVE_HEADER_SIZE ++ payload ++ buf.drop totalSize
      if inp.pmOk then
        { dispatched := some payload
          errorLog := none
          next := .loop
            { st := { s with receiveBuffer := bufU.drop totalSize }
              resumeExec := inp.pmResume
              expectedMessageType := inp.pmExpected } }
      else
        { dispatched := some payload
          errorLog := none
          next := .ret true { s with receiveBuffer := bufU } }

/-- The full receive call of `part_002`: iterate the loop body over the
per-iteration inputs.  The input list acts as fuel for the `while (true)`
loop; when it runs out the current `resume_exec` and state are returned. -/
def jerry_debugger_receive_ws : List StepInput → ReceiveLoopState → Bool × DebuggerState
  | [], ls => (ls.resumeExec, ls.st)
  | inp :: rest, ls =>
    match (jerry_debugger_receive_step inp ls).next with
    | .ret b s => (b, s)
    | .loop ls2 => jerry_debugger_receive_ws rest ls2

/-- The receive-buffer length of the state a step continuation carries. -/
def StepNext.bufferLen : StepNext → Nat
  | .ret _ s => s.receiveBuffer.length
  | .loop ls2 => ls2.st.receiveBuffer.length

/-! ## Handshake: Base64 and the Sec-WebSocket-Accept value -/

/-- Byte values of a string (all strings involved are ASCII). -/
def strBytes (s : String) : List Nat := s.data.map Char.toNat

/-- `jerry_to_base64_character` (`part_002` lines 158-182): convert a 6-bit
value to a Base64 character; the character constants are the byte values of
the characters A, a, 0, + and /. -/
def jerry_to_base64_character (value : Nat) : Nat :=
  if value < 26 then (value + 65) % 256
  else if value < 52 then (value - 26 + 97) % 256
  else if value < 62 then (value - 52 + 48) % 256
  else if value = 62 then 43
  else 47

/-- `jerry_to_base64` (`part_002` lines 187-210): encode a byte sequence
whose length is divisible by 3, 3 source bytes to 4 Base64 characters. -/
def jerry_to_base64 : List Nat → List Nat
  | s0 :: s1 :: s2 :: rest =>
    jerry_to_base64_character (s0 >>> 2) ::
    jerry_to_base64_character (((s0 <<< 4) ||| (s1 >>> 4)) &&& 0x3f) ::
    jerry_to_base64_character (((s1 <<< 2) ||| (s2 >>> 6)) &&& 0x3f) ::
    jerry_to_base64_character (s2 &&& 0x3f) ::
    jerry_to_base64 rest
  | _ => []

/-! ### SHA-1

Modelled from the spec: the body of `jerry_debugger_compute_sha1`
(jerry-core/debugger/debugger-sha1.c) is not under src/ — the spec places
"the SHA-1 primitive used in the handshake" outside the core and requires
`accept = base64( sha1( key || "258EAFA5-E914-47DA-95CA-C5AB0DC85B11" ) )`
per RFC 6455, so standard SHA-1 (RFC 3174) over the concatenated inputs is
modelled here.  All words are 32-bit, modelled as `Nat` reduced mod `2^32`.
-/

/-- Reduce to a 32-bit word. -/
def w32 (n : Nat) : Nat := n % 4294967296

/-- Rotate a 32-bit word left by `b` bits. -/
def rotl32 (b n : Nat) : Nat := w32 ((n <<< b) ||| (n >>> (32 - b)))

/-- Big-endian bytes of `n`, `k` bytes wide. -/
def beBytes (k n : Nat) : List Nat :=
  (List.range k).map (fun i => (n >>> (8 * (k - 1 - i))) % 256)

/-- A big-endian 32-bit word from a list of bytes. -/
def beWord (bs : List Nat) : Nat := bs.foldl (fun a b => a * 256 + b % 256) 0

/-- SHA-1 padding: append 0x80, zero bytes, and the 64-bit big-endian bit
length, up to a multiple of 64 bytes. -/
def sha1pad (msg : List Nat) : List Nat :=
  let zeros := (64 - (msg.length + 9) % 64) % 64
  msg ++ [0x80] ++ List.replicate zeros 0 ++ beBytes 8 (8 * msg.length)

/-- The SHA-1 message schedule of one 64-byte block, 80 words. -/
def sha1schedule (block : List Nat) : List Nat :=
  (List.range 80).foldl
    (fun ws t =>
      if t < 16 then ws ++ [beWord ((block.drop (4 * t)).take 4)]
      else ws ++ [rotl32 1
        (ws.getD (t - 3) 0 ^^^ ws.getD (t - 8) 0 ^^^ ws.getD (t - 14) 0 ^^^ ws.getD (t - 16) 0)])
    []

/-- The SHA-1 round function. -/
def sha1f (t b c d : Nat) : Nat :=
  if t < 20 then (b &&& c) ||| ((b ^^^ 0xffffffff) &&& d)
  else if t < 40 then b ^^^ c ^^^ d
  else if t < 60 then (b &&& c) ||| (b &&& d) ||| (c &&& d)
  else b ^^^ c ^^^ d

/-- The SHA-1 round constants. -/
def sha1k (t : Nat) : Nat :=
  if t < 20 then 0x5A827999
  else if t < 40 then 0x6ED9EBA1
  else if t < 60 then 0x8F1BBCDC
  else 0xCA62C1D6

/-- The SHA-1 chaining state. -/
structure Sha1State where
  h0 : Nat
  h1 : Nat
  h2 : Nat
  h3 : Nat
  h4 : Nat
  deriving DecidableEq, Repr

/-- Compress one 64-byte block into the chaining state. -/
def sha1block (st : Sha1State) (block : List Nat) : Sha1State :=
  let ws := sha1schedule block
  let r := (List.range 80).foldl
    (fun (x : Nat × Nat × Nat × Nat × Nat) t =>
      let (a, b, c, d, e) := x
      (w32 (rotl32 5 a + sha1f t b c d + e + sha1k t + ws.getD t 0), a, rotl32 30 b, c, d))
    (st.h0, st.h1, st.h2, st.h3, st.h4)
  { h0 := w32 (st.h0 + r.1)
    h1 := w32 (st.h1 + r.2.1)
    h2 := w32 (st.h2 + r.2.2.1)
    h3 := w32 (st.h3 + r.2.2.2.1)
    h4 := w32 (st.h4 + r.2.2.2.2) }

/-- Fold the compression function over `n` consecutive 64-byte blocks. -/
def sha1blocks : Nat → Sha1State → List Nat → Sha1State
  | 0, st, _ => st
  | n + 1, st, bytes => sha1blocks n (sha1block st (bytes.take 64)) (bytes.drop 64)

/-- SHA-1 of a byte sequence: 20 output bytes. -/
def sha1 (msg : List Nat) : List Nat :=
  let padded := sha1pad msg
  let st := sha1blocks (padded.length / 64)
    { h0 := 0x67452301, h1 := 0xEFCDAB89, h2 := 0x98BADCFE, h3 := 0x10325476, h4 := 0xC3D2E1F0 }
    padded
  beBytes 4 st.h0 ++ beBytes 4 st.h1 ++ beBytes 4 st.h2 ++ beBytes 4 st.h3 ++ beBytes 4 st.h4

/-- `jerry_debugger_compute_sha1 (input1, input2)`: SHA-1 of the
concatenation of its two inputs (declared in `part_001` lines 100-102;
modelled from the spec as RFC 3174 SHA-1, see above). -/
def jerry_debugger_compute_sha1 (input1 input2 : List Nat) : List Nat :=
  sha1 (input1 ++ input2)

/-- The RFC 6455 GUID appended to the client key
("258EAFA5-E914-47DA-95CA-C5AB0DC85B11", `part_002` line 311). -/
def jerry_websocket_guid : List Nat := strBytes "258EAFA5-E914-47DA-95CA-C5AB0DC85B11"

/-- The Sec-WebSocket-Accept bytes emitted by `jerry_process_handshake`
(`part_002` lines 307-332): SHA-1 of `key || GUID` (20 bytes) with one zero
byte appended, Base64-encoded (21 bytes to 28 characters); the code sends
the first 27 characters followed by a literal "=" (byte 61). -/
def jerry_process_handshake_accept (key : List Nat) : List Nat :=
  let sha := jerry_debugger_compute_sha1 key jerry_websocket_guid
  let b64 := jerry_to_base64 (sha ++ [0])
  b64.take 27 ++ [61]

/-- The accept value as the spec words it: Base64 of the 21-byte sequence
`sha1(key || GUID) ++ [0]`, with the 28th (final) Base64 character
overwritten by the equals-sign character. -/
def spec_handshake_accept (key : List Nat) : List Nat :=
  (jerry_to_base64 (sha1 (key ++ jerry_websocket_guid) ++ [0])).set 27 61

/-- The full HTTP 101 response of `jerry_process_handshake`
(lines 323-332): prefix, 27 accept characters, then "=" and the final
CRLFs. -/
def jerry_process_handshake_response (key : List Nat) : List Nat :=
  strBytes "HTTP/1.1 101 Switching Protocols\r\nUpgrade: websocket\r\nConnection: Upgrade\r\nSec-WebSocket-Accept: "
    ++ jerry_process_handshake_accept key ++ strBytes "\r\n\r\n"

/-! ## Accepting a connection (`part_002` `jerry_debugger_accept_connection_ws`) -/

/-- The payload of the configuration message.

Modelled from the spec: the body of `jerry_debugger_send_configuration`
(jerry-core/debugger/debugger.c) is not under src/.  Per the spec
("Configuration message body: `type=1, max_message_size, cpointer_size,
little_endian, version=2`") and the layout of
`jerry_debugger_send_configuration_t` (debugger.h lines 267-275), the
payload after the WebSocket header is the type byte followed by the maximum
incoming message size, the compressed-pointer size, the endianness flag and
the protocol version. -/
def jerry_debugger_configuration_payload (maxMessageSize cpointerSize littleEndian : Nat) :
    List Nat :=
  [JERRY_DEBUGGER_CONFIGURATION, maxMessageSize, cpointerSize, littleEndian,
   JERRY_DEBUGGER_VERSION]

/-- `debugger_max_send_size` as computed in
`jerry_debugger_accept_connection_ws` (`part_002` lines 359-364):
`buffer size - send header size`, clamped to 125. -/
def jerry_debugger_max_send_size_calc (bufferSize : Nat) : Nat :=
  let m := (bufferSize - JERRY_DEBUGGER_WEBSOCKET_HEADER_SIZE) % 256
  if m > 125 then 125 else m

/-- `debugger_max_receive_size` as computed in
`jerry_debugger_accept_connection_ws` (`part_002` lines 366-373):
`buffer size - receive header size`, clamped to 125. -/
def jerry_debugger_max_receive_size_calc (bufferSize : Nat) : Nat :=
  let m := (bufferSize - JERRY_DEBUGGER_RECEIVE_HEADER_SIZE) % 256
  if m > 125 then 125 else m

/-- `jerry_debugger_accept_connection_ws` of `part_002` (lines 347-463),
starting after the TCP `accept` returned a client socket (the earlier
socket/bind/listen failures simply return false without touching the
debugger state).  External inputs: whether the handshake succeeded, whether
sending the configuration message succeeded, and whether the two `fcntl`
calls succeeded; `cpointerSize` and `littleEndian` are the engine
parameters of the configuration message.  Returns the success flag, the
resulting state, and the list of WebSocket frames emitted (the HTTP 101
response precedes them on the wire and is not a WebSocket frame). -/
def jerry_debugger_accept_connection_ws (handshakeOk configSendOk fcntlOk : Bool)
    (cpointerSize littleEndian : Nat) (s : DebuggerState) :
    Bool × DebuggerState × List (List Nat) :=
  let maxSend := jerry_debugger_max_send_size_calc JERRY_DEBUGGER_MAX_BUFFER_SIZE
  let maxRecv := jerry_debugger_max_receive_size_calc JERRY_DEBUGGER_MAX_BUFFER_SIZE
  let s := { s with maxSendSize := maxSend, maxReceiveSize := maxRecv, socketOpen := true }
  let s := { s with flags := s.flags ||| JERRY_DEBUGGER_CONNECTED }
  if !handshakeOk then
    (false, jerry_debugger_close_connection_tcp false s, [])
  else
    let configFrame := jerry_debugger_send_ws_frame
      (jerry_debugger_configuration_payload maxRecv cpointerSize littleEndian)
    let s := { s with sentBytes := s.sentBytes ++ configFrame }
    if !configSendOk then
      (false, s, [configFrame])
    else if !fcntlOk then
      (false, jerry_debugger_close_connection_tcp true s, [configFrame])
    else
      (true, { s with flags := s.flags ||| JERRY_DEBUGGER_VM_STOP }, [configFrame])

/-! ## Helper lemmas -/

/-! Sanity examples evaluating the embedded definitions on concrete inputs. -/

example : jerry_debugger_receive_frame_p2 122 [0x82, 0x81, 1, 2, 3, 4, 0x41] =
    .accepted [0x40] 7 := by decide

example : jerry_debugger_receive_frame_p2 122 [0x81, 0x81, 1, 2, 3, 4, 0x41] =
    .unsupportedOpcode := by decide

example : jerry_debugger_receive_frame_p2 122 [0x02, 0x81, 1, 2, 3, 4, 0x41] =
    .unsupportedMessage := by decide

example : jerry_debugger_receive_frame_p1 [0x82, 0x81, 1, 2, 3, 4, 0x41] =
    .accepted [0x40] 7 := by decide

/-- RFC 6455 test: sha1 of "abc" (sanity example, RFC 3174 appendix). -/
example : sha1 (strBytes "abc") =
    [0xa9, 0x99, 0x3e, 0x36, 0x47, 0x06, 0x81, 0x6a, 0xba, 0x3e,
     0x25, 0x71, 0x78, 0x50, 0xc2, 0x6c, 0x9c, 0xd0, 0xd8, 0x9d] := by decide

example : jerry_process_handshake_accept (strBytes "dGhlIHNhbXBsZSBub25jZQ==") =
    strBytes "s3pPLMBiTxaQ9kYGzzhZRbK+xOo=" := by decide

/-- The two transcriptions of the unmasking loop agree. -/
lemma jerry_debugger_unmask_p1_eq_p2 (mask : List Nat) (i : Nat) (data : List Nat) :
    jerry_debugger_unmask_p1 mask i data = jerry_debugger_unmask_p2 mask i data := by
  induction data generalizing i with
  | nil => rfl
  | cons d rest ih =>
    simp only [jerry_debugger_unmask_p1, jerry_debugger_unmask_p2, ih]

/-- Unmasking keeps the payload length. -/
lemma jerry_debugger_unmask_p2_length (mask : List Nat) (i : Nat) (data : List Nat) :
    (jerry_debugger_unmask_p2 mask i data).length = data.length := by
  induction data generalizing i with
  | nil => rfl
  | cons d rest ih =>
    simp only [jerry_debugger_unmask_p2, List.length_cons, ih]

/-- For bytes, masking with 0xf0 and comparing to 0x80 is the FIN/reserved
bit test. -/
lemma byte_and_f0 (b : Nat) (hb : b < 256) :
    (b &&& 0xf0 = 0x80) ↔
      (b.testBit 7 ∧ ¬ b.testBit 6 ∧ ¬ b.testBit 5 ∧ ¬ b.testBit 4) := by
  revert b; decide

/-- For bytes, masking with 0x0f is reduction mod 16 (the opcode). -/
lemma byte_and_0f (b : Nat) (hb : b < 256) : b &&& 0x0f = b % 16 := by
  revert b; decide

/-- For bytes, masking with 0x7f is reduction mod 128 (the payload length). -/
lemma byte_and_7f (b : Nat) (hb : b < 256) : b &&& 0x7f = b % 128 := by
  revert b; decide

/-- For bytes, testing 0x80 is testing bit 7 (the mask bit). -/
lemma byte_and_80 (b : Nat) (hb : b < 256) : (b &&& 0x80 ≠ 0) ↔ b.testBit 7 := by
  revert b; decide

/-- Anatomy of an accepted frame: the payload is the unmasked data bytes,
its length is the 7-bit length field, and the consumed total is the header
plus the payload, available in the buffer. -/
lemma jerry_debugger_receive_frame_p2_accepted (maxRecv : Nat) (buf : List Nat)
    (p : List Nat) (t : Nat)
    (h : jerry_debugger_receive_frame_p2 maxRecv buf = .accepted p t) :
    p.length + JERRY_DEBUGGER_RECEIVE_HEADER_SIZE = t ∧
      t = (buf.getD 1 0 &&& JERRY_DEBUGGER_WEBSOCKET_LENGTH_MASK) +
        JERRY_DEBUGGER_RECEIVE_HEADER_SIZE ∧
      t ≤ buf.length := by
  simp only [jerry_debugger_receive_frame_p2] at h
  split_ifs at h with h1 h2 h3 h4
  simp only [WsFrameResult.accepted.injEq] at h
  obtain ⟨hp, ht⟩ := h
  subst hp ht
  refine ⟨?_, rfl, by omega⟩
  rw [jerry_debugger_unmask_p2_length, List.length_take, List.length_drop]
  omega

/-- Flag-setting: OR-ing a flag in and masking with it yields the flag. -/
lemma nat_or_and_self (x c : Nat) : (x ||| c) &&& c = c := by
  apply Nat.eq_of_testBit_eq
  intro i
  simp only [Nat.testBit_and, Nat.testBit_or]
  cases hc : c.testBit i <;> simp [hc]

/-! ## Claims -/

/-- C10: For every receive-buffer state and incoming byte sequence, the
frame validation and unmasking logic of the two socket transport
implementations (`jerry_debugger_receive_ws` of `part_001`, and the
corresponding steps of `jerry_debugger_receive_ws` of `part_002` run with
the `debugger_max_receive_size` value installed by
`jerry_debugger_accept_connection_ws`) accept exactly the same completed
frames, classify the same inputs as incomplete or erroneous, and produce
identical unmasked payload bytes. -/
theorem jerry_debugger_receive_frame_p1_eq_p2 (buf : List Nat) :
    jerry_debugger_receive_frame_p1 buf =
      jerry_debugger_receive_frame_p2
        (jerry_debugger_max_receive_size_calc JERRY_DEBUGGER_MAX_BUFFER_SIZE) buf := by
  simp only [jerry_debugger_receive_frame_p1, jerry_debugger_receive_frame_p2,
    jerry_debugger_max_receive_size_calc, jerry_debugger_unmask_p1_eq_p2,
    JERRY_DEBUGGER_MAX_BUFFER_SIZE, JERRY_DEBUGGER_WEBSOCKET_HEADER_SIZE,
    JERRY_DEBUGGER_WEBSOCKET_MASK_SIZE, JERRY_DEBUGGER_RECEIVE_HEADER_SIZE]
  norm_num

/-- C3: For every frame emitted by `jerry_debugger_send_ws` with payload
size `n` (which the caller keeps within the 125-byte maximum installed by
`jerry_debugger_accept_connection_ws`, per the assertion
`data_size <= debugger_max_send_size`), the first byte on the wire is 0x82
(`FIN | BINARY`), the second byte equals `n` with `n ≤ 125`, and exactly
`2 + n` bytes in total are passed to the TCP send path. -/
theorem jerry_debugger_send_ws_wire_format (payload : List Nat)
    (h : payload.length ≤ jerry_debugger_max_send_size_calc JERRY_DEBUGGER_MAX_BUFFER_SIZE) :
    (jerry_debugger_send_ws_frame payload).head? = some 0x82 ∧
      (jerry_debugger_send_ws_frame payload).getD 1 0 = payload.length ∧
      payload.length ≤ 125 ∧
      (jerry_debugger_send_ws_frame payload).length = 2 + payload.length ∧
      ∀ s : DebuggerState,
        (jerry_debugger_send_ws .ok payload s).2.sentBytes =
          s.sentBytes ++ jerry_debugger_send_ws_frame payload := by
  have h125 : payload.length ≤ 125 := by
    simpa [jerry_debugger_max_send_size_calc] using h
  refine ⟨rfl, ?_, h125, by simp [jerry_debugger_send_ws_frame]; omega, ?_⟩
  · simp only [jerry_debugger_send_ws_frame, List.getD]
    simp [Nat.mod_eq_of_lt (by omega : payload.length < 256)]
  · intro s
    simp [jerry_debugger_send_ws, jerry_debugger_send_tcp]

/-- Witness for C3 at a concrete payload. -/
theorem jerry_debugger_send_ws_wire_format_witness :
    (jerry_debugger_send_ws_frame [9, 8, 7]).head? = some 0x82 ∧
      (jerry_debugger_send_ws_frame [9, 8, 7]).getD 1 0 = 3 ∧
      (3 : Nat) ≤ 125 ∧
      (jerry_debugger_send_ws_frame [9, 8, 7]).length = 2 + 3 ∧
      ∀ s : DebuggerState,
        (jerry_debugger_send_ws .ok [9, 8, 7] s).2.sentBytes =
          s.sentBytes ++ jerry_debugger_send_ws_frame [9, 8, 7] := by
  have := jerry_debugger_send_ws_wire_format [9, 8, 7] (by decide)
  simpa using this

/-- C9: The maximum outgoing payload size for a single message equals the
buffer size minus the 2-byte send header, capped at 125; with the 128-byte
buffer the maximum is 125, and every frame built under the
`data_size <= debugger_max_send_size` assertion of
`jerry_debugger_send_ws` carries a payload of at most 125 bytes. -/
theorem jerry_debugger_max_send_size_spec :
    jerry_debugger_max_send_size_calc JERRY_DEBUGGER_MAX_BUFFER_SIZE = 125 ∧
      (∀ B, 64 ≤ B → B ≤ 256 →
        jerry_debugger_max_send_size_calc B =
          min (B - JERRY_DEBUGGER_WEBSOCKET_HEADER_SIZE) 125) ∧
      (∀ payload : List Nat,
        payload.length ≤ jerry_debugger_max_send_size_calc JERRY_DEBUGGER_MAX_BUFFER_SIZE →
        (jerry_debugger_send_ws_frame payload).length -
          JERRY_DEBUGGER_WEBSOCKET_HEADER_SIZE ≤ 125) := by
  refine ⟨rfl, ?_, ?_⟩
  · intro B h64 h256
    simp only [jerry_debugger_max_send_size_calc, JERRY_DEBUGGER_WEBSOCKET_HEADER_SIZE]
    have : (B - 2) % 256 = B - 2 := Nat.mod_eq_of_lt (by omega)
    rw [this]
    split_ifs <;> omega
  · intro payload h
    simp only [jerry_debugger_max_send_size_calc, JERRY_DEBUGGER_MAX_BUFFER_SIZE,
      JERRY_DEBUGGER_WEBSOCKET_HEADER_SIZE] at h
    norm_num at h
    simp only [jerry_debugger_send_ws_frame, List.length_cons,
      JERRY_DEBUGGER_WEBSOCKET_HEADER_SIZE]
    omega

/-- Witness for C9 at a concrete buffer size and payload. -/
theorem jerry_debugger_max_send_size_spec_witness :
    jerry_debugger_max_send_size_calc 128 =
      min (128 - JERRY_DEBUGGER_WEBSOCKET_HEADER_SIZE) 125 ∧
      (jerry_debugger_send_ws_frame [1]).length -
        JERRY_DEBUGGER_WEBSOCKET_HEADER_SIZE ≤ 125 := by
  refine ⟨?_, ?_⟩
  · have := jerry_debugger_max_send_size_spec.2.1 128 (by decide) (by decide)
    simpa [JERRY_DEBUGGER_MAX_BUFFER_SIZE] using this
  · exact jerry_debugger_max_send_size_spec.2.2 [1] (by decide)

/-- `jerry_to_base64` emits 4 characters per full 3-byte group. -/
lemma jerry_to_base64_length : ∀ l : List Nat,
    (jerry_to_base64 l).length = 4 * (l.length / 3)
  | s0 :: s1 :: s2 :: rest => by
    simp only [jerry_to_base64, List.length_cons, jerry_to_base64_length rest]
    omega
  | [] => by simp [jerry_to_base64]
  | [a] => by simp [jerry_to_base64]
  | [a, b] => by simp [jerry_to_base64]

/-- SHA-1 always produces 20 bytes. -/
lemma sha1_length (msg : List Nat) : (sha1 msg).length = 20 := by
  simp [sha1, beBytes]

/-- C4: The Sec-WebSocket-Accept value emitted by `jerry_process_handshake`
equals the Base64 encoding of the 21-byte sequence `sha1(key || GUID)`
followed by one zero pad byte, with the 28th (final) Base64 character
replaced by the equals sign; in particular, for the RFC 6455 sample key
"dGhlIHNhbXBsZSBub25jZQ==" the emitted accept value is
"s3pPLMBiTxaQ9kYGzzhZRbK+xOo=". -/
theorem jerry_process_handshake_accept_spec :
    (∀ key : List Nat,
      jerry_process_handshake_accept key = spec_handshake_accept key) ∧
    jerry_process_handshake_accept (strBytes "dGhlIHNhbXBsZSBub25jZQ==") =
      strBytes "s3pPLMBiTxaQ9kYGzzhZRbK+xOo=" := by
  constructor
  · intro key
    simp only [jerry_process_handshake_accept, spec_handshake_accept,
      jerry_debugger_compute_sha1]
    have h28 : (jerry_to_base64 (sha1 (key ++ jerry_websocket_guid) ++ [0])).length = 28 := by
      rw [jerry_to_base64_length]
      simp [sha1_length]
    rw [List.set_eq_take_cons_drop 61 (by omega)]
    have : (jerry_to_base64 (sha1 (key ++ jerry_websocket_guid) ++ [0])).drop 28 = [] :=
      List.drop_eq_nil_of_le (by omega)
    rw [this]
  · decide

/-- C1: After `jerry_debugger_accept_connection_ws` succeeds, the CONNECTED
and VM_STOP flags are both set, and the first WebSocket frame sent on the
wire after the HTTP 101 response is a CONFIGURATION message (type 1) whose
version field equals 2 and whose body carries the maximum incoming message
size, the compressed-pointer size, and the endianness flag. -/
theorem jerry_debugger_accept_connection_ws_success
    (cpointerSize littleEndian : Nat) (s : DebuggerState) :
    (jerry_debugger_accept_connection_ws true true true cpointerSize littleEndian s).1 = true ∧
    (jerry_debugger_accept_connection_ws true true true cpointerSize littleEndian s).2.1.flags
        &&& JERRY_DEBUGGER_CONNECTED = JERRY_DEBUGGER_CONNECTED ∧
    (jerry_debugger_accept_connection_ws true true true cpointerSize littleEndian s).2.1.flags
        &&& JERRY_DEBUGGER_VM_STOP = JERRY_DEBUGGER_VM_STOP ∧
    (jerry_debugger_accept_connection_ws true true true cpointerSize littleEndian
        s).2.1.maxReceiveSize = 122 ∧
    (jerry_debugger_accept_connection_ws true true true cpointerSize littleEndian s).2.2.head? =
      some [0x82, 5, JERRY_DEBUGGER_CONFIGURATION, 122, cpointerSize, littleEndian,
        JERRY_DEBUGGER_VERSION] := by
  refine ⟨rfl, ?_, ?_, by rfl, by rfl⟩
  · show ((s.flags ||| JERRY_DEBUGGER_CONNECTED) ||| JERRY_DEBUGGER_VM_STOP) &&&
      JERRY_DEBUGGER_CONNECTED = JERRY_DEBUGGER_CONNECTED
    rw [Nat.or_assoc, Nat.or_comm JERRY_DEBUGGER_CONNECTED JERRY_DEBUGGER_VM_STOP,
      ← Nat.or_assoc]
    exact nat_or_and_self _ _
  · show ((s.flags ||| JERRY_DEBUGGER_CONNECTED) ||| JERRY_DEBUGGER_VM_STOP) &&&
      JERRY_DEBUGGER_VM_STOP = JERRY_DEBUGGER_VM_STOP
    exact nat_or_and_self _ _

/-- C2: A completed inbound frame is accepted and dispatched by
`jerry_debugger_receive_ws` if and only if its first byte has the FIN bit
set and no reserved bits, its opcode is BINARY (2), its mask bit is set,
and its 7-bit payload length is at most the configured maximum receive
size; any completed frame violating one of these conditions causes an
error log and the connection to be closed within that poll. -/
theorem jerry_debugger_receive_ws_frame_acceptance (maxRecv : Nat) (buf : List Nat)
    (hb0 : buf.getD 0 0 < 256) (hb1 : buf.getD 1 0 < 256)
    (hcomplete : JERRY_DEBUGGER_RECEIVE_HEADER_SIZE + buf.getD 1 0 % 128 ≤ buf.length) :
    ((∃ p t, jerry_debugger_receive_frame_p2 maxRecv buf = .accepted p t) ↔
      ((buf.getD 0 0).testBit 7 ∧ ¬ (buf.getD 0 0).testBit 6 ∧
        ¬ (buf.getD 0 0).testBit 5 ∧ ¬ (buf.getD 0 0).testBit 4 ∧
        buf.getD 0 0 % 16 = JERRY_DEBUGGER_WEBSOCKET_BINARY_FRAME ∧
        (buf.getD 1 0).testBit 7 ∧ buf.getD 1 0 % 128 ≤ maxRecv)) ∧
    (¬ ((buf.getD 0 0).testBit 7 ∧ ¬ (buf.getD 0 0).testBit 6 ∧
        ¬ (buf.getD 0 0).testBit 5 ∧ ¬ (buf.getD 0 0).testBit 4 ∧
        buf.getD 0 0 % 16 = JERRY_DEBUGGER_WEBSOCKET_BINARY_FRAME ∧
        (buf.getD 1 0).testBit 7 ∧ buf.getD 1 0 % 128 ≤ maxRecv) →
      ∀ ls : ReceiveLoopState, ls.st.receiveBuffer = buf → ls.st.maxReceiveSize = maxRecv →
        ∀ pmOk pmResume : Bool, ∀ pmExpected : Nat,
          (jerry_debugger_receive_step ⟨.wouldBlock, pmOk, pmResume, pmExpected⟩
            ls).errorLog.isSome = true ∧
          ∃ s2 : DebuggerState,
            (jerry_debugger_receive_step ⟨.wouldBlock, pmOk, pmResume, pmExpected⟩ ls).next =
              .ret true s2 ∧
            s2.flags = JERRY_DEBUGGER_VM_IGNORE ∧ s2.socketOpen = false) := by
  have hlen : ¬ buf.length < JERRY_DEBUGGER_RECEIVE_HEADER_SIZE := by
    simp only [JERRY_DEBUGGER_RECEIVE_HEADER_SIZE, JERRY_DEBUGGER_WEBSOCKET_HEADER_SIZE,
      JERRY_DEBUGGER_WEBSOCKET_MASK_SIZE] at hcomplete ⊢
    omega
  have hfin : (buf.getD 0 0 &&& 0xf0 = JERRY_DEBUGGER_WEBSOCKET_FIN_BIT) ↔
      ((buf.getD 0 0).testBit 7 ∧ ¬ (buf.getD 0 0).testBit 6 ∧
        ¬ (buf.getD 0 0).testBit 5 ∧ ¬ (buf.getD 0 0).testBit 4) :=
    byte_and_f0 _ hb0
  have hop : buf.getD 0 0 &&& JERRY_DEBUGGER_WEBSOCKET_OPCODE_MASK = buf.getD 0 0 % 16 :=
    byte_and_0f _ hb0
  have hlen7 : buf.getD 1 0 &&& JERRY_DEBUGGER_WEBSOCKET_LENGTH_MASK = buf.getD 1 0 % 128 :=
    byte_and_7f _ hb1
  have hmaskbit : (buf.getD 1 0 &&& JERRY_DEBUGGER_WEBSOCKET_MASK_BIT ≠ 0) ↔
      (buf.getD 1 0).testBit 7 :=
    byte_and_80 _ hb1
  have hmain : (∃ p t, jerry_debugger_receive_frame_p2 maxRecv buf = .accepted p t) ↔
      ((buf.getD 0 0).testBit 7 ∧ ¬ (buf.getD 0 0).testBit 6 ∧
        ¬ (buf.getD 0 0).testBit 5 ∧ ¬ (buf.getD 0 0).testBit 4 ∧
        buf.getD 0 0 % 16 = JERRY_DEBUGGER_WEBSOCKET_BINARY_FRAME ∧
        (buf.getD 1 0).testBit 7 ∧ buf.getD 1 0 % 128 ≤ maxRecv) := by
    simp only [jerry_debugger_receive_frame_p2, hlen, if_false, hop, hlen7]
    split_ifs with h1 h2 h3
    · constructor
      · rintro ⟨p, t, h⟩
        exact h.elim
      · rintro ⟨ha, hb, hc, hd, he, hf, hg⟩
        rcases h1 with h1 | h1 | h1
        · exact absurd (hfin.mpr ⟨ha, hb, hc, hd⟩) h1
        · exact absurd hg (by omega)
        · exact absurd h1 (by simpa using hmaskbit.mpr hf)
    · constructor
      · rintro ⟨p, t, h⟩
        exact h.elim
      · rintro ⟨ha, hb, hc, hd, he, hf, hg⟩
        exact absurd he h2
    · exfalso
      simp only [JERRY_DEBUGGER_RECEIVE_HEADER_SIZE, JERRY_DEBUGGER_WEBSOCKET_HEADER_SIZE,
        JERRY_DEBUGGER_WEBSOCKET_MASK_SIZE] at hcomplete h3
      omega
    · constructor
      · rintro ⟨p, t, h⟩
        push_neg at h1
        obtain ⟨h1a, h1b, h1c⟩ := h1
        obtain ⟨ha, hb, hc, hd⟩ := hfin.mp h1a
        push_neg at h2
        exact ⟨ha, hb, hc, hd, h2, hmaskbit.mp h1c, h1b⟩
      · intro hconds
        exact ⟨_, _, rfl⟩
  refine ⟨hmain, ?_⟩
  intro hnot ls hbuf hmax pmOk pmResume pmExpected
  have hnacc : ∀ p t, jerry_debugger_receive_frame_p2 maxRecv buf ≠ .accepted p t := by
    intro p t hacc
    exact hnot (hmain.mp ⟨p, t, hacc⟩)
  have hfr : jerry_debugger_receive_frame_p2 maxRecv buf = .unsupportedMessage ∨
      jerry_debugger_receive_frame_p2 maxRecv buf = .unsupportedOpcode := by
    simp only [jerry_debugger_receive_frame_p2, hlen, if_false, hlen7] at hnacc ⊢
    split_ifs with h1 h2 h3
    · exact Or.inl rfl
    · exact Or.inr rfl
    · exfalso
      simp only [JERRY_DEBUGGER_RECEIVE_HEADER_SIZE, JERRY_DEBUGGER_WEBSOCKET_HEADER_SIZE,
        JERRY_DEBUGGER_WEBSOCKET_MASK_SIZE] at hcomplete h3
      omega
    · rw [if_neg h1, if_neg h2, if_neg h3] at hnacc
      exact absurd rfl (hnacc _ _)
  have hb2 : ls.st.receiveBuffer ++ ([] : List Nat) = buf := by
    rw [hbuf, List.append_nil]
  rcases hfr with hfr | hfr <;>
    simp only [jerry_debugger_receive_step, hb2, hmax, hfr] <;>
    exact ⟨rfl, _, rfl, rfl, rfl⟩

/-- Witness for C2: the completed masked binary frame 82 81 01 02 03 04 41
is accepted. -/
theorem jerry_debugger_receive_ws_frame_acceptance_witness :
    ∃ p t, jerry_debugger_receive_frame_p2 122 [0x82, 0x81, 1, 2, 3, 4, 0x41] =
      WsFrameResult.accepted p t :=
  ((jerry_debugger_receive_ws_frame_acceptance 122 [0x82, 0x81, 1, 2, 3, 4, 0x41]
    (by decide) (by decide) (by decide)).1).mpr (by decide)

/-- C5: Every iteration of the non-blocking poll `jerry_debugger_receive_ws`
performs one non-blocking `recv` into the receive buffer at the current
offset (appending at most `JERRY_DEBUGGER_MAX_BUFFER_SIZE - offset` bytes
after the currently valid bytes); if a complete frame is then present it
decodes and dispatches it to `jerry_debugger_process_message`, otherwise
(in the ordinary poll, where no multi-part message is expected) the call
returns to the VM. -/
theorem jerry_debugger_receive_ws_poll_step (ls : ReceiveLoopState) (data : List Nat)
    (pmOk pmResume : Bool) (pmExpected : Nat)
    (hexp : ls.expectedMessageType = 0) :
    (∀ p t,
      jerry_debugger_receive_frame_p2 ls.st.maxReceiveSize
          (ls.st.receiveBuffer ++
            data.take (JERRY_DEBUGGER_MAX_BUFFER_SIZE - ls.st.receiveBuffer.length)) =
        .accepted p t →
      (jerry_debugger_receive_step ⟨.bytes data, pmOk, pmResume, pmExpected⟩ ls).dispatched =
        some p) ∧
    (jerry_debugger_receive_frame_p2 ls.st.maxReceiveSize
        (ls.st.receiveBuffer ++
          data.take (JERRY_DEBUGGER_MAX_BUFFER_SIZE - ls.st.receiveBuffer.length)) =
        .incomplete →
      (jerry_debugger_receive_step ⟨.bytes data, pmOk, pmResume, pmExpected⟩ ls).dispatched =
        none ∧
      (jerry_debugger_receive_step ⟨.bytes data, pmOk, pmResume, pmExpected⟩ ls).next =
        .ret ls.resumeExec
          { ls.st with receiveBuffer := ls.st.receiveBuffer ++
              data.take (JERRY_DEBUGGER_MAX_BUFFER_SIZE - ls.st.receiveBuffer.length) }) := by
  constructor
  · intro p t h
    simp only [jerry_debugger_receive_step, h]
    by_cases hok : pmOk = true <;> simp [hok]
  · intro h
    simp only [jerry_debugger_receive_step, h, hexp]
    exact ⟨rfl, rfl⟩

/-- Witness for C5: polling an empty buffer with a complete 7-byte frame
as input dispatches the unmasked 1-byte payload. -/
theorem jerry_debugger_receive_ws_poll_step_witness :
    (jerry_debugger_receive_step
      ⟨.bytes [0x82, 0x81, 1, 2, 3, 4, 0x41], true, false, 0⟩
      ⟨⟨1, [], 122, 125, true, [], [], []⟩, false, 0⟩).dispatched = some [0x40] :=
  (jerry_debugger_receive_ws_poll_step
    ⟨⟨1, [], 122, 125, true, [], [], []⟩, false, 0⟩
    [0x82, 0x81, 1, 2, 3, 4, 0x41] true false 0 rfl).1 [0x40] 7 (by decide)

/-- C7: Whenever a socket `recv` or `send` fails with an error other than
`EWOULDBLOCK` while a client is connected, the session is torn down by
`jerry_debugger_close_connection_tcp`: the debugger flags word is set to
exactly `VM_IGNORE` (every other flag, including CONNECTED, is cleared),
the socket is closed, and the deferred byte-code free queue is flushed via
`jerry_debugger_free_unreferenced_byte_code`. -/
theorem jerry_debugger_close_connection_teardown :
    (∀ (logError : Bool) (s : DebuggerState),
      s.flags &&& JERRY_DEBUGGER_CONNECTED = JERRY_DEBUGGER_CONNECTED →
      (jerry_debugger_close_connection_tcp logError s).flags = JERRY_DEBUGGER_VM_IGNORE ∧
      (jerry_debugger_close_connection_tcp logError s).flags &&& JERRY_DEBUGGER_CONNECTED = 0 ∧
      (jerry_debugger_close_connection_tcp logError s).socketOpen = false ∧
      (jerry_debugger_close_connection_tcp logError s).freeQueue = [] ∧
      (jerry_debugger_close_connection_tcp logError s).freedByteCode =
        s.freedByteCode ++ s.freeQueue) ∧
    (∀ (inp : StepInput) (ls : ReceiveLoopState), inp.recv = .hardError →
      (jerry_debugger_receive_step inp ls).next =
        .ret true (jerry_debugger_close_connection_tcp true ls.st)) ∧
    (∀ (data : List Nat) (s : DebuggerState),
      jerry_debugger_send_tcp .hardError data s =
        (false, jerry_debugger_close_connection_tcp true s)) := by
  refine ⟨?_, ?_, ?_⟩
  · intro logError s _
    refine ⟨rfl, ?_, rfl, rfl, rfl⟩
    show JERRY_DEBUGGER_VM_IGNORE &&& JERRY_DEBUGGER_CONNECTED = 0
    decide
  · rintro ⟨recv, pmOk, pmResume, pmExpected⟩ ls h
    cases recv with
    | hardError => rfl
    | wouldBlock => exact absurd h (by simp)
    | bytes data => exact absurd h (by simp)
  · intro data s
    rfl

/-- Witness for C7 at a concrete connected state. -/
theorem jerry_debugger_close_connection_teardown_witness :
    (jerry_debugger_close_connection_tcp true
      ⟨1, [5], 122, 125, true, [3, 4], [9], []⟩).flags = JERRY_DEBUGGER_VM_IGNORE ∧
    (jerry_debugger_close_connection_tcp true
      ⟨1, [5], 122, 125, true, [3, 4], [9], []⟩).freedByteCode = [9] ++ [3, 4] :=
  ⟨((jerry_debugger_close_connection_teardown.1 true
      ⟨1, [5], 122, 125, true, [3, 4], [9], []⟩) (by decide)).1,
   ((jerry_debugger_close_connection_teardown.1 true
      ⟨1, [5], 122, 125, true, [3, 4], [9], []⟩) (by decide)).2.2.2.2⟩

/-- One loop iteration keeps the receive-buffer offset within the buffer. -/
lemma jerry_debugger_receive_step_buffer_bound (inp : StepInput) (ls : ReceiveLoopState)
    (h : ls.st.receiveBuffer.length ≤ JERRY_DEBUGGER_MAX_BUFFER_SIZE) :
    (jerry_debugger_receive_step inp ls).next.bufferLen ≤ JERRY_DEBUGGER_MAX_BUFFER_SIZE := by
  obtain ⟨recv, pmOk, pmResume, pmExpected⟩ := inp
  cases recv with
  | hardError =>
    simpa [jerry_debugger_receive_step, StepNext.bufferLen,
      jerry_debugger_close_connection_tcp] using h
  | wouldBlock =>
    simp only [jerry_debugger_receive_step]
    set buf2 := ls.st.receiveBuffer ++ ([] : List Nat) with hbuf2def
    have hbuf2 : buf2.length ≤ JERRY_DEBUGGER_MAX_BUFFER_SIZE := by
      simpa [hbuf2def] using h
    split
    · split
      · simpa [StepNext.bufferLen] using hbuf2
      · simpa [StepNext.bufferLen] using hbuf2
    · simpa [StepNext.bufferLen, jerry_debugger_close_connection_tcp] using hbuf2
    · simpa [StepNext.bufferLen, jerry_debugger_close_connection_tcp] using hbuf2
    · next p t heq =>
      have hacc := jerry_debugger_receive_frame_p2_accepted _ _ _ _ heq
      split
      · simp only [StepNext.bufferLen, List.length_drop, List.length_append, List.length_take]
        omega
      · simp only [StepNext.bufferLen, List.length_append, List.length_take, List.length_drop]
        omega
  | bytes data =>
    simp only [jerry_debugger_receive_step]
    set buf2 := ls.st.receiveBuffer ++
      data.take (JERRY_DEBUGGER_MAX_BUFFER_SIZE - ls.st.receiveBuffer.length) with hbuf2def
    have hbuf2 : buf2.length ≤ JERRY_DEBUGGER_MAX_BUFFER_SIZE := by
      simp only [hbuf2def, List.length_append, List.length_take]
      omega
    split
    · split
      · simpa [StepNext.bufferLen] using hbuf2
      · simpa [StepNext.bufferLen] using hbuf2
    · simpa [StepNext.bufferLen, jerry_debugger_close_connection_tcp] using hbuf2
    · simpa [StepNext.bufferLen, jerry_debugger_close_connection_tcp] using hbuf2
    · next p t heq =>
      have hacc := jerry_debugger_receive_frame_p2_accepted _ _ _ _ heq
      split
      · simp only [StepNext.bufferLen, List.length_drop, List.length_append, List.length_take]
        omega
      · simp only [StepNext.bufferLen, List.length_append, List.length_take, List.length_drop]
        omega

/-- C6: The receive-buffer offset (the number of valid bytes) never exceeds
the buffer size `B = 128` at any point of the receive loop: each `recv`
reads at most `B - offset` bytes, every step of the loop preserves the
bound (as does the whole loop), and after a complete message of total size
`T` is processed, the leftover bytes are moved to the start of the buffer
and the offset is reduced by `T`. -/
theorem jerry_debugger_receive_buffer_offset_invariant :
    (∀ (offset : Nat) (data : List Nat),
      (data.take (JERRY_DEBUGGER_MAX_BUFFER_SIZE - offset)).length ≤
        JERRY_DEBUGGER_MAX_BUFFER_SIZE - offset) ∧
    (∀ (inp : StepInput) (ls : ReceiveLoopState),
      ls.st.receiveBuffer.length ≤ JERRY_DEBUGGER_MAX_BUFFER_SIZE →
      (jerry_debugger_receive_step inp ls).next.bufferLen ≤ JERRY_DEBUGGER_MAX_BUFFER_SIZE) ∧
    (∀ (data p : List Nat) (t : Nat) (ls : ReceiveLoopState) (pmResume : Bool)
      (pmExpected : Nat),
      jerry_debugger_receive_frame_p2 ls.st.maxReceiveSize
          (ls.st.receiveBuffer ++
            data.take (JERRY_DEBUGGER_MAX_BUFFER_SIZE - ls.st.receiveBuffer.length)) =
        .accepted p t →
      ∀ ls2, (jerry_debugger_receive_step ⟨.bytes data, true, pmResume, pmExpected⟩ ls).next =
          .loop ls2 →
        ls2.st.receiveBuffer =
          (ls.st.receiveBuffer ++
            data.take (JERRY_DEBUGGER_MAX_BUFFER_SIZE - ls.st.receiveBuffer.length)).drop t ∧
        ls2.st.receiveBuffer.length + t =
          (ls.st.receiveBuffer ++
            data.take (JERRY_DEBUGGER_MAX_BUFFER_SIZE - ls.st.receiveBuffer.length)).length) ∧
    (∀ (inputs : List StepInput) (ls : ReceiveLoopState),
      ls.st.receiveBuffer.length ≤ JERRY_DEBUGGER_MAX_BUFFER_SIZE →
      (jerry_debugger_receive_ws inputs ls).2.receiveBuffer.length ≤
        JERRY_DEBUGGER_MAX_BUFFER_SIZE) := by
  refine ⟨?_, jerry_debugger_receive_step_buffer_bound, ?_, ?_⟩
  · intro offset data
    simp only [List.length_take]
    omega
  · intro data p t ls pmResume pmExpected hfr ls2 h2
    simp only [jerry_debugger_receive_step] at h2
    set buf2 := ls.st.receiveBuffer ++
      data.take (JERRY_DEBUGGER_MAX_BUFFER_SIZE - ls.st.receiveBuffer.length) with hbuf2def
    rw [hfr] at h2
    simp only [eq_self_iff_true, if_true, StepNext.loop.injEq] at h2
    subst h2
    have hacc := jerry_debugger_receive_frame_p2_accepted _ _ _ _ hfr
    have hlen : (buf2.take JERRY_DEBUGGER_RECEIVE_HEADER_SIZE ++ p).length = t := by
      simp only [List.length_append, List.length_take]
      omega
    have hdrop : (buf2.take JERRY_DEBUGGER_RECEIVE_HEADER_SIZE ++ p ++ buf2.drop t).drop t =
        buf2.drop t := by
      nth_rewrite 1 [← hlen]
      exact List.drop_left _ _
    constructor
    · exact hdrop
    · rw [hdrop, List.length_drop]
      omega
  · intro inputs
    induction inputs with
    | nil =>
      intro ls hls
      simpa [jerry_debugger_receive_ws] using hls
    | cons inp rest ih =>
      intro ls hls
      have hstep := jerry_debugger_receive_step_buffer_bound inp ls hls
      simp only [jerry_debugger_receive_ws]
      rcases hnext : (jerry_debugger_receive_step inp ls).next with ⟨b, s⟩ | ls2
      · simp only [hnext, StepNext.bufferLen] at hstep
        simpa using hstep
      · simp only [hnext, StepNext.bufferLen] at hstep
        exact ih ls2 hstep

/-- Witness for C6 at a concrete step and a concrete two-iteration run. -/
theorem jerry_debugger_receive_buffer_offset_invariant_witness :
    (jerry_debugger_receive_step ⟨.bytes [0x82, 0x81, 1, 2, 3, 4, 0x41], true, false, 0⟩
        ⟨⟨1, [], 122, 125, true, [], [], []⟩, false, 0⟩).next.bufferLen ≤
      JERRY_DEBUGGER_MAX_BUFFER_SIZE ∧
    (jerry_debugger_receive_ws
        [⟨.bytes [0x82, 0x81, 1, 2, 3, 4, 0x41], true, false, 0⟩, ⟨.wouldBlock, true, false, 0⟩]
        ⟨⟨1, [], 122, 125, true, [], [], []⟩, false, 0⟩).2.receiveBuffer.length ≤
      JERRY_DEBUGGER_MAX_BUFFER_SIZE :=
  ⟨jerry_debugger_receive_buffer_offset_invariant.2.1 _ _ (by decide),
   jerry_debugger_receive_buffer_offset_invariant.2.2.2 _ _ (by decide)⟩

/-- Counterexample for C8: a completed CLOSE frame (88 80 00 00 00 00) is
not given a graceful shutdown distinct from PING/PONG handling — it takes
exactly the unsupported-opcode protocol-error path (the error log
"Unsupported Websocket opcode" followed by closing the connection), the
same classification as a PING frame (89 80 ...) and a PONG frame (8a 80
...). -/
theorem jerry_debugger_close_frame_counterexample :
    jerry_debugger_receive_frame_p2 122 [0x88, 0x80, 0, 0, 0, 0] =
      WsFrameResult.unsupportedOpcode ∧
    jerry_debugger_receive_frame_p2 122 [0x89, 0x80, 0, 0, 0, 0] =
      WsFrameResult.unsupportedOpcode ∧
    jerry_debugger_receive_frame_p2 122 [0x8a, 0x80, 0, 0, 0, 0] =
      WsFrameResult.unsupportedOpcode ∧
    (jerry_debugger_receive_step ⟨.bytes [0x88, 0x80, 0, 0, 0, 0], true, false, 0⟩
        ⟨⟨1, [], 122, 125, true, [], [], []⟩, false, 0⟩).errorLog =
      some LogMsg.unsupportedWebsocketOpcode ∧
    (jerry_debugger_receive_step ⟨.bytes [0x89, 0x80, 0, 0, 0, 0], true, false, 0⟩
        ⟨⟨1, [], 122, 125, true, [], [], []⟩, false, 0⟩).errorLog =
      some LogMsg.unsupportedWebsocketOpcode := by
  refine ⟨rfl, rfl, rfl, rfl, rfl⟩

/-- C8 (amended): On ingress, only frames with the BINARY opcode are
processed as data; a frame with the CLOSE, PING or PONG opcode is treated
as an unsupported-opcode protocol error — an error is logged and the
connection is closed — with no handling of CLOSE distinct from PING or
PONG. -/
theorem jerry_debugger_receive_frame_opcode_handling (maxRecv : Nat) (buf : List Nat)
    (hfin : buf.getD 0 0 &&& 0xf0 = JERRY_DEBUGGER_WEBSOCKET_FIN_BIT)
    (hmask : buf.getD 1 0 &&& JERRY_DEBUGGER_WEBSOCKET_MASK_BIT ≠ 0)
    (hmax : buf.getD 1 0 &&& JERRY_DEBUGGER_WEBSOCKET_LENGTH_MASK ≤ maxRecv)
    (hcomplete : (buf.getD 1 0 &&& JERRY_DEBUGGER_WEBSOCKET_LENGTH_MASK) +
      JERRY_DEBUGGER_RECEIVE_HEADER_SIZE ≤ buf.length) :
    ((buf.getD 0 0 &&& JERRY_DEBUGGER_WEBSOCKET_OPCODE_MASK =
        JERRY_DEBUGGER_WEBSOCKET_BINARY_FRAME) →
      ∃ p t, jerry_debugger_receive_frame_p2 maxRecv buf = .accepted p t) ∧
    ((buf.getD 0 0 &&& JERRY_DEBUGGER_WEBSOCKET_OPCODE_MASK =
          JERRY_DEBUGGER_WEBSOCKET_CLOSE_CONNECTION ∨
      buf.getD 0 0 &&& JERRY_DEBUGGER_WEBSOCKET_OPCODE_MASK =
          JERRY_DEBUGGER_WEBSOCKET_PING ∨
      buf.getD 0 0 &&& JERRY_DEBUGGER_WEBSOCKET_OPCODE_MASK =
          JERRY_DEBUGGER_WEBSOCKET_PONG) →
      jerry_debugger_receive_frame_p2 maxRecv buf = .unsupportedOpcode) := by
  have hlen : ¬ buf.length < JERRY_DEBUGGER_RECEIVE_HEADER_SIZE := by omega
  have hc1 : ¬ (buf.getD 0 0 &&& (0xf0 : Nat) ≠ JERRY_DEBUGGER_WEBSOCKET_FIN_BIT
      ∨ (buf.getD 1 0 &&& JERRY_DEBUGGER_WEBSOCKET_LENGTH_MASK) > maxRecv
      ∨ (buf.getD 1 0 &&& JERRY_DEBUGGER_WEBSOCKET_MASK_BIT) = 0) := by
    push_neg
    exact ⟨hfin, by omega, hmask⟩
  constructor
  · intro hop
    simp only [jerry_debugger_receive_frame_p2, hlen, if_false, if_neg hc1, hop]
    simp only [ne_eq, not_true_eq_false, if_false, if_neg (by omega : ¬ buf.length <
      (buf.getD 1 0 &&& JERRY_DEBUGGER_WEBSOCKET_LENGTH_MASK) +
        JERRY_DEBUGGER_RECEIVE_HEADER_SIZE)]
    exact ⟨_, _, rfl⟩
  · intro hop
    have hne : buf.getD 0 0 &&& JERRY_DEBUGGER_WEBSOCKET_OPCODE_MASK ≠
        JERRY_DEBUGGER_WEBSOCKET_BINARY_FRAME := by
      rcases hop with h | h | h <;> rw [h] <;> decide
    simp only [jerry_debugger_receive_frame_p2, hlen, if_false, if_neg hc1, if_pos hne]

/-- Witness for the amended C8 at a concrete masked CLOSE frame. -/
theorem jerry_debugger_receive_frame_opcode_handling_witness :
    jerry_debugger_receive_frame_p2 122 [0x88, 0x81, 0, 0, 0, 0, 0x20] =
      WsFrameResult.unsupportedOpcode :=
  (jerry_debugger_receive_frame_opcode_handling 122 [0x88, 0x81, 0, 0, 0, 0, 0x20]
    (by decide) (by decide) (by decide) (by decide)).2 (Or.inl (by decide))
